import Mathlib

/-!
Verification of the Nova flood-assistant chat logic.

Shallow embedding of the two source files:
- the serverless chat handler (context assembly, upstream call, reply
  augmentation, catch branch), and
- the chat widget turn logic (session check, persistence writes, upstream
  invocation, message-log updates, send guard).

Roles are modelled as the runtime strings of the source; fallible steps are
modelled by explicit outcome values threaded through the turn functions.
-/

namespace Flood

/-- UI-level chat message, mirroring the Message interface of the handler
and the widget: a role tag (runtime strings user and bot), the text
content, and an optional list of quick-reply option labels. -/
structure Message where
  type : String
  content : String
  options : Option (List String) := none
deriving DecidableEq

/-- Role-tagged entry of the model context sent upstream. -/
structure RoleContent where
  role : String
  content : String
deriving DecidableEq

/-- The fixed system directive of the handler, verbatim. -/
def systemPrompt : String := "You are Nova, a flood awareness and emergency response assistant. Your primary goal is to help users with:
1. Understanding flood risks and types
2. Emergency preparedness
3. Local flood alerts and warnings
4. Post-flood recovery guidance
5. Emergency contacts and resources

Keep responses concise, practical, and focused on flood-related information. Always maintain a helpful and reassuring tone.

Current location context: Chennai, Tamil Nadu, India
Emergency contacts:
- Police: 100
- Flood Control: 1913
- Emergency Services: 108"

/-- Per-entry role mapping of the handler: type user maps to user, any
other type maps to assistant; the content is kept, the options dropped. -/
def toRoleContent (msg : Message) : RoleContent :=
  { role := if msg.type = "user" then "user" else "assistant"
    content := msg.content }

/-- The entry unshifted onto the context: the system directive. -/
def systemEntry : RoleContent :=
  { role := "system", content := systemPrompt }

/-- Context Builder: map the history through the two-role schema, unshift
the system entry, push the new user message. -/
def buildContext (context : List Message) (message : String) : List RoleContent :=
  systemEntry :: (context.map toRoleContent ++ [{ role := "user", content := message }])

/-- Substring search over character lists: true when the pattern occurs as
a contiguous run, as JS String.includes does on the ASCII strings used. -/
def hasSubAux (pat : List Char) : List Char → Bool
  | [] => pat.isEmpty
  | c :: rest => pat.isPrefixOf (c :: rest) || hasSubAux pat rest

/-- JS String.includes on the ASCII strings this program matches. -/
def strIncludes (s pat : String) : Bool :=
  hasSubAux pat.data s.data

/-- JS String.toLowerCase on the ASCII strings this program handles,
computed characterwise over the underlying character list. -/
def toLowerCase (s : String) : String :=
  ⟨s.data.map Char.toLower⟩

/-- JS String.trim: strip leading and trailing whitespace, computed over
the underlying character list. -/
def jsTrim (s : String) : String :=
  ⟨((s.data.dropWhile Char.isWhitespace).reverse.dropWhile Char.isWhitespace).reverse⟩

/-- Default quick-reply option set of the handler. -/
def defaultOptions : List String :=
  ["Tell me more", "What should I do next?", "Back to main menu"]

/-- Option set chosen when the user message mentions flood risk. -/
def floodRiskOptions : List String :=
  ["How can I prepare?", "Show emergency contacts", "Get local alerts"]

/-- Option set chosen when the user message mentions an emergency. -/
def emergencyOptions : List String :=
  ["Call emergency services", "Evacuation guidelines", "Find shelter"]

/-- Option selection of the handler: lowercase the user message, then a
first-match-wins two-rule chain with a default. -/
def optionsFor (message : String) : List String :=
  if strIncludes (toLowerCase message) "flood risk" then floodRiskOptions
  else if strIncludes (toLowerCase message) "emergency" then emergencyOptions
  else defaultOptions

/-- Reply Augmenter: the bot message returned by the handler, carrying the
raw model text and the options selected from the user message. -/
def augmentReply (modelText message : String) : Message :=
  { type := "bot", content := modelText, options := some (optionsFor message) }

/-- The request body the handler parses: the new message and the trailing
window of prior messages. -/
structure RequestBody where
  message : String
  context : List Message
deriving DecidableEq

/-- Observable outcome of one upstream chat-completion call: the ok flag,
the upstream error message when not ok (absent when the error JSON carries
none), and, on a well-formed ok response, the first completion text. -/
structure DeepseekResponse where
  ok : Bool
  errMsg : Option String
  modelText : String
deriving DecidableEq

/-- Error text thrown by the handler on a non-ok upstream response. -/
def upstreamErrorText (r : DeepseekResponse) : String :=
  "DeepSeek API error: " ++ r.errMsg.getD "Unknown error"

/-- One serverless turn, run against the stream of responses the upstream
endpoint would yield on successive fetches. The handler performs exactly
one fetch, so it consumes the head of the stream and returns the rest; an
empty stream models the fetch itself failing at the network level. On a
non-ok response it throws the upstream error text; on an ok response it
returns the augmented reply. -/
def serverTurn (body : RequestBody) (stream : List DeepseekResponse) :
    Except String Message × List DeepseekResponse :=
  match stream with
  | [] => (Except.error "fetch failed", [])
  | r :: rest =>
      if r.ok then (Except.ok (augmentReply r.modelText body.message), rest)
      else (Except.error (upstreamErrorText r), rest)

/-- The generic user-facing failure notice. -/
def genericErrorNotice : String := "Failed to get response. Please try again."

/-- JSON error body of the catch branch: a fixed generic notice in the
error field and the thrown message in the details field. -/
structure ErrorBody where
  error : String
  details : String
deriving DecidableEq

/-- Body of the HTTP response: the augmented reply or the error body. -/
inductive HttpBody
  | reply (m : Message)
  | failure (e : ErrorBody)
deriving DecidableEq

/-- HTTP response of the serverless handler. -/
structure HttpResponse where
  status : Nat
  body : HttpBody
deriving DecidableEq

/-- The error body built in the catch branch from the thrown message. -/
def catchBody (e : String) : ErrorBody :=
  { error := genericErrorNotice, details := e }

/-- The whole serverless handler on a chat request: the turn wrapped in
try/catch, returning the reply with status 200 or the catch-branch error
body with status 500. -/
def chatHandler (body : RequestBody) (stream : List DeepseekResponse) : HttpResponse :=
  match (serverTurn body stream).1 with
  | Except.ok m => { status := 200, body := HttpBody.reply m }
  | Except.error e => { status := 500, body := HttpBody.failure (catchBody e) }

/-- The error body of a response, when it is a failure response. -/
def errorBodyOf : HttpResponse → Option ErrorBody
  | { body := HttpBody.failure e, .. } => some e
  | _ => none

/-- Outcome of the session lookup in the widget: the lookup itself erring,
no session, or a session carrying the signed-in user id. -/
inductive SessionOutcome
  | sessionError
  | noSession
  | signedIn (uid : String)
deriving DecidableEq

/-- Outcomes of the external collaborators over one widget turn: the
session lookup, the two persistence inserts (some e is a failed insert
with error e, none is success), and the upstream invocation (ok carries
the model text the deployed handler would augment). -/
structure Env where
  session : SessionOutcome
  userInsert : Option String
  upstream : Except String String
  botInsert : Option String

/-- A record successfully written to the persistence store. -/
structure DbWrite where
  content : String
  type : String
  user_id : Option String
deriving DecidableEq

/-- The user-visible notices the widget can raise during a turn. -/
inductive Toast
  | authRequired
  | failureNotice
  | spellingNotice
deriving DecidableEq

/-- Observable trace of one widget turn: the records written to the store
in order, whether the upstream function was invoked, the entries appended
to the message log, and the notices raised. -/
structure TurnTrace where
  writes : List DbWrite
  upstreamCalled : Bool
  appended : List Message
  toasts : List Toast
deriving DecidableEq

/-- The user entry the widget appends to its log. -/
def mkUserMessage (content : String) : Message :=
  { type := "user", content := content, options := none }

/-- The widget turn: session check, user-message insert, upstream
invocation, bot-message insert, then the log append; any failure jumps to
the catch branch, which only raises the generic notice. On upstream
success the reply is the augmented message the deployed handler returns. -/
def handleResponse (env : Env) (userMessage : String) : TurnTrace :=
  match env.session with
  | SessionOutcome.sessionError =>
      { writes := [], upstreamCalled := false, appended := [], toasts := [Toast.failureNotice] }
  | SessionOutcome.noSession =>
      { writes := [], upstreamCalled := false, appended := [], toasts := [Toast.authRequired] }
  | SessionOutcome.signedIn uid =>
      match env.userInsert with
      | some _ =>
          { writes := [], upstreamCalled := false, appended := [], toasts := [Toast.failureNotice] }
      | none =>
          let userWrite : DbWrite := { content := userMessage, type := "user", user_id := some uid }
          match env.upstream with
          | Except.error _ =>
              { writes := [userWrite], upstreamCalled := true, appended := [],
                toasts := [Toast.failureNotice] }
          | Except.ok modelText =>
              let aiMessage := augmentReply modelText userMessage
              match env.botInsert with
              | some _ =>
                  { writes := [userWrite], upstreamCalled := true, appended := [],
                    toasts := [Toast.failureNotice] }
              | none =>
                  { writes := [userWrite,
                      { content := aiMessage.content, type := "bot", user_id := none }],
                    upstreamCalled := true,
                    appended := [mkUserMessage userMessage, aiMessage],
                    toasts := [] }

/-- The option-click handler: append the clicked option as a user entry,
then run the turn (which appends the user entry again with the reply). -/
def handleOptionClick (env : Env) (optionLabel : String) (messages : List Message) :
    List Message :=
  (messages ++ [mkUserMessage optionLabel]) ++ (handleResponse env optionLabel).appended

/-- Widget state read by the send handler. -/
structure UiState where
  messages : List Message
  input : String
  isLoading : Bool
deriving DecidableEq

/-- Observable trace of one send: the resulting log, the resulting input
box content, and the turn effects. -/
structure SendTrace where
  messages : List Message
  input : String
  writes : List DbWrite
  upstreamCalled : Bool
  toasts : List Toast
deriving DecidableEq

/-- The send handler: return immediately when the trimmed input is empty
or a request is in flight; otherwise autocorrect, raise the spelling
notice when the text changed, clear the input, and run the turn. -/
def handleSend (ac : String → String) (env : Env) (st : UiState) : SendTrace :=
  if jsTrim st.input = "" || st.isLoading then
    { messages := st.messages, input := st.input, writes := [],
      upstreamCalled := false, toasts := [] }
  else
    let corrected := ac st.input
    let spellToasts := if corrected ≠ st.input then [Toast.spellingNotice] else []
    let tr := handleResponse env corrected
    { messages := st.messages ++ tr.appended, input := "",
      writes := tr.writes, upstreamCalled := tr.upstreamCalled,
      toasts := spellToasts ++ tr.toasts }

/-- Number of user-role entries with the given content in a log slice. -/
def countUserEntries (content : String) (l : List Message) : Nat :=
  (l.filter (fun m => m.type == "user" && m.content == content)).length

/-- The claim that a failure response body shows the client nothing but
the generic notice: each field of every error body sent to the client is
the generic notice or empty. -/
def clientSeesOnlyGeneric : Prop :=
  ∀ (body : RequestBody) (stream : List DeepseekResponse) (e : ErrorBody),
    errorBodyOf (chatHandler body stream) = some e →
    (e.error = genericErrorNotice ∨ e.error = "") ∧
    (e.details = genericErrorNotice ∨ e.details = "")

/-- Request used to exercise the failure path of the handler. -/
def c3Body : RequestBody := { message := "hi", context := [] }

/-- A non-ok upstream response carrying an upstream error message. -/
def c3Resp : DeepseekResponse :=
  { ok := false, errMsg := some "Invalid API key", modelText := "" }

/-- Example history used to instantiate the Context Builder theorem. -/
def c1ExampleHistory : List Message :=
  [{ type := "user", content := "hi", options := none },
   { type := "bot", content := "hello", options := some ["Tell me more"] }]

/-- C1: for every history of at most 5 messages and every new message, the
built context has length two more than the history, starts with the system
directive, ends with a user entry carrying the new message, and its
interior is exactly the history mapped in order, user entries to role
user and bot entries to role assistant, keeping contents and dropping
option lists. -/
theorem c1_context_builder (H : List Message) (m : String) (hlen : H.length ≤ 5) :
    (buildContext H m).length = H.length + 2 ∧
    (buildContext H m).head? = some systemEntry ∧
    (buildContext H m).getLast? = some { role := "user", content := m } ∧
    ((buildContext H m).drop 1).dropLast = H.map toRoleContent ∧
    (∀ msg ∈ H, msg.type = "user" →
        toRoleContent msg = { role := "user", content := msg.content }) ∧
    (∀ msg ∈ H, msg.type = "bot" →
        toRoleContent msg = { role := "assistant", content := msg.content }) := by
  refine ⟨?_, rfl, ?_, ?_, ?_, ?_⟩
  · simp [buildContext]
  · rw [buildContext, ← List.cons_append, List.getLast?_concat]
  · simp [buildContext]
  · intro msg _ h
    simp [toRoleContent, h]
  · intro msg _ h
    simp [toRoleContent, h]

/-- Witness: the Context Builder theorem applied to a concrete two-entry
history and the message of the end-to-end scenario. -/
theorem c1_context_builder_witness :
    c1ExampleHistory.length ≤ 5 ∧
    ((buildContext c1ExampleHistory "What are flood risks?").length =
        c1ExampleHistory.length + 2 ∧
     (buildContext c1ExampleHistory "What are flood risks?").head? = some systemEntry ∧
     (buildContext c1ExampleHistory "What are flood risks?").getLast? =
        some { role := "user", content := "What are flood risks?" } ∧
     ((buildContext c1ExampleHistory "What are flood risks?").drop 1).dropLast =
        c1ExampleHistory.map toRoleContent ∧
     (∀ msg ∈ c1ExampleHistory, msg.type = "user" →
        toRoleContent msg = { role := "user", content := msg.content }) ∧
     (∀ msg ∈ c1ExampleHistory, msg.type = "bot" →
        toRoleContent msg = { role := "assistant", content := msg.content })) :=
  ⟨by decide, c1_context_builder c1ExampleHistory "What are flood risks?" (by decide)⟩

/-- C2: the augmented reply is a bot message whose content is the model
text; its options follow the first-match-wins case-insensitive rules on
the user message, and a message matching both rules gets the flood-risk
set. -/
theorem c2_reply_augmenter (t m : String) :
    (augmentReply t m).type = "bot" ∧
    (augmentReply t m).content = t ∧
    (strIncludes (toLowerCase m) "flood risk" = true →
        (augmentReply t m).options = some floodRiskOptions) ∧
    (strIncludes (toLowerCase m) "flood risk" = false →
      strIncludes (toLowerCase m) "emergency" = true →
        (augmentReply t m).options = some emergencyOptions) ∧
    (strIncludes (toLowerCase m) "flood risk" = false →
      strIncludes (toLowerCase m) "emergency" = false →
        (augmentReply t m).options = some defaultOptions) ∧
    (strIncludes (toLowerCase m) "flood risk" = true →
      strIncludes (toLowerCase m) "emergency" = true →
        (augmentReply t m).options = some floodRiskOptions) := by
  refine ⟨rfl, rfl, ?_, ?_, ?_, ?_⟩ <;> intro h1 <;>
    first
      | (intro h2; simp [augmentReply, optionsFor, h1, h2])
      | simp [augmentReply, optionsFor, h1]

/-- Witness: the augmenter theorem at a message containing both flood
risk and emergency in mixed case; the flood-risk set is selected. -/
theorem c2_reply_augmenter_witness :
    strIncludes (toLowerCase "Flood Risk in an EMERGENCY") "flood risk" = true ∧
    strIncludes (toLowerCase "Flood Risk in an EMERGENCY") "emergency" = true ∧
    (augmentReply "ok" "Flood Risk in an EMERGENCY").options = some floodRiskOptions :=
  ⟨by decide, by decide,
    (c2_reply_augmenter "ok" "Flood Risk in an EMERGENCY").2.2.2.2.2 (by decide) (by decide)⟩

/-- C8: the Context Builder is a pure function of its two arguments: two
calls on equal histories and equal new messages return equal contexts. -/
theorem c8_context_builder_deterministic (H₁ H₂ : List Message) (m₁ m₂ : String)
    (hH : H₁ = H₂) (hm : m₁ = m₂) :
    buildContext H₁ m₁ = buildContext H₂ m₂ := by
  rw [hH, hm]

/-- Witness: determinism at a concrete one-entry history and message. -/
theorem c8_context_builder_deterministic_witness :
    buildContext [{ type := "user", content := "hi", options := none }] "again" =
    buildContext [{ type := "user", content := "hi", options := none }] "again" :=
  c8_context_builder_deterministic _ _ _ _ rfl rfl

/-- C3 counterexample: on a concrete failed upstream call the error body
sent to the client has a details field holding the upstream error text, so
it does not contain only the generic notice. -/
theorem c3_counterexample_details_leak : ¬ clientSeesOnlyGeneric := by
  intro h
  have hb := h c3Body [c3Resp]
      { error := genericErrorNotice, details := "DeepSeek API error: Invalid API key" } rfl
  exact absurd hb.2 (by decide)

/-- C3 amended: on any turn-level failure the handler returns HTTP 500
whose error field is the generic notice but whose details field equals the
internal thrown message, exposing upstream error detail to the client. -/
theorem c3_amended_error_body (body : RequestBody) (stream : List DeepseekResponse)
    (e : String) (h : (serverTurn body stream).1 = Except.error e) :
    chatHandler body stream =
      { status := 500,
        body := HttpBody.failure { error := genericErrorNotice, details := e } } := by
  simp [chatHandler, h, catchBody]

/-- Witness: the amended C3 theorem at the concrete failed upstream call. -/
theorem c3_amended_error_body_witness :
    (serverTurn c3Body [c3Resp]).1 = Except.error "DeepSeek API error: Invalid API key" ∧
    chatHandler c3Body [c3Resp] =
      { status := 500,
        body := HttpBody.failure
          { error := genericErrorNotice,
            details := "DeepSeek API error: Invalid API key" } } :=
  ⟨rfl, c3_amended_error_body c3Body [c3Resp] _ rfl⟩

/-- Request used to instantiate the upstream-failure theorem. -/
def c6Body : RequestBody := { message := "hi", context := [] }

/-- A non-ok upstream response carrying an upstream error message. -/
def c6Resp : DeepseekResponse :=
  { ok := false, errMsg := some "quota exceeded", modelText := "" }

/-- C6: a non-ok upstream response makes the turn fail with the upstream
error text, carrying the upstream message when present and the fixed
unknown-error text otherwise; and every turn consumes exactly one response
from the upstream stream, so no retry is made. -/
theorem c6_upstream_error_single_attempt (body : RequestBody) (r : DeepseekResponse)
    (rest : List DeepseekResponse) (hok : r.ok = false) :
    (serverTurn body (r :: rest)).1 = Except.error (upstreamErrorText r) ∧
    (∀ msg, r.errMsg = some msg →
        (serverTurn body (r :: rest)).1 = Except.error ("DeepSeek API error: " ++ msg)) ∧
    (r.errMsg = none →
        (serverTurn body (r :: rest)).1 = Except.error "DeepSeek API error: Unknown error") ∧
    (serverTurn body (r :: rest)).2 = rest ∧
    (∀ (r₂ : DeepseekResponse) (rest₂ : List DeepseekResponse),
        (serverTurn body (r₂ :: rest₂)).2 = rest₂) := by
  refine ⟨?_, ?_, ?_, ?_, ?_⟩
  · simp [serverTurn, hok]
  · intro msg hm
    simp [serverTurn, hok, upstreamErrorText, hm]
  · intro hm
    simp [serverTurn, hok, upstreamErrorText, hm]
  · simp [serverTurn, hok]
  · intro r₂ rest₂
    by_cases hr : r₂.ok <;> simp [serverTurn, hr]

/-- Witness: the upstream-failure theorem at a concrete non-ok response. -/
theorem c6_upstream_error_single_attempt_witness :
    c6Resp.ok = false ∧
    ((serverTurn c6Body [c6Resp]).1 = Except.error (upstreamErrorText c6Resp) ∧
     (∀ msg, c6Resp.errMsg = some msg →
        (serverTurn c6Body [c6Resp]).1 = Except.error ("DeepSeek API error: " ++ msg)) ∧
     (c6Resp.errMsg = none →
        (serverTurn c6Body [c6Resp]).1 = Except.error "DeepSeek API error: Unknown error") ∧
     (serverTurn c6Body [c6Resp]).2 = [] ∧
     (∀ (r₂ : DeepseekResponse) (rest₂ : List DeepseekResponse),
        (serverTurn c6Body (r₂ :: rest₂)).2 = rest₂)) :=
  ⟨rfl, c6_upstream_error_single_attempt c6Body c6Resp [] rfl⟩

/-- Collaborator outcomes with a failing upstream call after a successful
user-message insert. -/
def c4Env : Env :=
  { session := SessionOutcome.signedIn "u1", userInsert := none,
    upstream := Except.error "boom", botInsert := none }

/-- C4: when the session is present, the user-message insert succeeded and
the upstream call then fails, the store holds exactly the user-message
record, unchanged, and no bot record: nothing is rolled back or deleted. -/
theorem c4_no_rollback_on_upstream_failure (env : Env) (m uid e : String)
    (hs : env.session = SessionOutcome.signedIn uid)
    (hui : env.userInsert = none)
    (hup : env.upstream = Except.error e) :
    (handleResponse env m).writes =
      [{ content := m, type := "user", user_id := some uid }] ∧
    (∀ w ∈ (handleResponse env m).writes, w.type ≠ "bot") := by
  obtain ⟨s, ui, up, bi⟩ := env
  dsimp only at hs hui hup
  subst hs hui hup
  refine ⟨rfl, ?_⟩
  intro w hw
  have hw' : w = { content := m, type := "user", user_id := some uid } := by
    simpa [handleResponse] using hw
  rw [hw']
  simp

/-- Witness: the no-rollback theorem at a concrete failing environment. -/
theorem c4_no_rollback_on_upstream_failure_witness :
    c4Env.session = SessionOutcome.signedIn "u1" ∧
    c4Env.userInsert = none ∧
    c4Env.upstream = Except.error "boom" ∧
    ((handleResponse c4Env "hi").writes =
        [{ content := "hi", type := "user", user_id := some "u1" }] ∧
     (∀ w ∈ (handleResponse c4Env "hi").writes, w.type ≠ "bot")) :=
  ⟨rfl, rfl, rfl, c4_no_rollback_on_upstream_failure c4Env "hi" "u1" "boom" rfl rfl rfl⟩

/-- Collaborator outcomes with no authenticated session. -/
def c5Env : Env :=
  { session := SessionOutcome.noSession, userInsert := none,
    upstream := Except.ok "reply", botInsert := none }

/-- C5: with no session the turn short-circuits on the sign-in notice: no
store write, no upstream call, no log append. -/
theorem c5_auth_short_circuit (env : Env) (m : String)
    (hs : env.session = SessionOutcome.noSession) :
    handleResponse env m =
      { writes := [], upstreamCalled := false, appended := [],
        toasts := [Toast.authRequired] } := by
  obtain ⟨s, ui, up, bi⟩ := env
  dsimp only at hs
  subst hs
  rfl

/-- Witness: the short-circuit theorem at a concrete absent session. -/
theorem c5_auth_short_circuit_witness :
    c5Env.session = SessionOutcome.noSession ∧
    handleResponse c5Env "hi" =
      { writes := [], upstreamCalled := false, appended := [],
        toasts := [Toast.authRequired] } :=
  ⟨rfl, c5_auth_short_circuit c5Env "hi" rfl⟩

/-- C7: in every turn, every record written to the store and every entry
appended to the message log has role user or bot; the system entry exists
only in the per-call context, at its head, and no other context entry has
the system role. -/
theorem c7_system_role_transient (env : Env) (m : String) (H : List Message) :
    (∀ w ∈ (handleResponse env m).writes, w.type = "user" ∨ w.type = "bot") ∧
    (∀ msg ∈ (handleResponse env m).appended, msg.type = "user" ∨ msg.type = "bot") ∧
    (buildContext H m).head? = some systemEntry ∧
    (∀ rc ∈ (buildContext H m).drop 1, rc.role ≠ "system") := by
  refine ⟨?_, ?_, rfl, ?_⟩
  · obtain ⟨s, ui, up, bi⟩ := env
    cases s <;> cases ui <;> cases up <;> cases bi <;>
      simp [handleResponse, augmentReply, mkUserMessage]
  · obtain ⟨s, ui, up, bi⟩ := env
    cases s <;> cases ui <;> cases up <;> cases bi <;>
      simp [handleResponse, augmentReply, mkUserMessage]
  · intro rc hrc
    rw [buildContext] at hrc
    simp only [List.drop_succ_cons, List.drop_zero, List.mem_append,
      List.mem_map, List.mem_singleton] at hrc
    rcases hrc with ⟨msg, _, rfl⟩ | rfl
    · by_cases h : msg.type = "user" <;> simp [toRoleContent, h]
    · simp

/-- Collaborator outcomes for a fully successful turn. -/
def c9Env : Env :=
  { session := SessionOutcome.signedIn "u1", userInsert := none,
    upstream := Except.ok "reply", botInsert := none }

/-- Widget state with a nonempty input and no request in flight. -/
def c9St : UiState := { messages := [], input := "hello", isLoading := false }

/-- C9: on a successful turn, an option click appends the clicked text as
a user entry twice (once in the click handler, once in the turn handler)
before the reply, while a message sent from the text input is appended as
a user entry exactly once before the reply. -/
theorem c9_option_click_double_append (env : Env) (optionLabel : String)
    (messages : List Message) (ac : String → String) (st : UiState)
    (uid t : String)
    (hs : env.session = SessionOutcome.signedIn uid)
    (hui : env.userInsert = none)
    (hup : env.upstream = Except.ok t)
    (hbi : env.botInsert = none)
    (hin : jsTrim st.input ≠ "")
    (hload : st.isLoading = false) :
    handleOptionClick env optionLabel messages =
      messages ++ [mkUserMessage optionLabel, mkUserMessage optionLabel,
        augmentReply t optionLabel] ∧
    countUserEntries optionLabel
      ((handleOptionClick env optionLabel messages).drop messages.length) = 2 ∧
    (handleSend ac env st).messages =
      st.messages ++ [mkUserMessage (ac st.input), augmentReply t (ac st.input)] ∧
    countUserEntries (ac st.input)
      ((handleSend ac env st).messages.drop st.messages.length) = 1 := by
  obtain ⟨s, ui, up, bi⟩ := env
  dsimp only at hs hui hup hbi
  subst hs hui hup hbi
  have hclick : handleOptionClick
      { session := SessionOutcome.signedIn uid, userInsert := none,
        upstream := Except.ok t, botInsert := none } optionLabel messages =
      messages ++ [mkUserMessage optionLabel, mkUserMessage optionLabel,
        augmentReply t optionLabel] := by
    simp [handleOptionClick, handleResponse]
  have hsend : (handleSend ac
      { session := SessionOutcome.signedIn uid, userInsert := none,
        upstream := Except.ok t, botInsert := none } st).messages =
      st.messages ++ [mkUserMessage (ac st.input), augmentReply t (ac st.input)] := by
    simp [handleSend, hin, hload, handleResponse]
  refine ⟨hclick, ?_, hsend, ?_⟩
  · rw [hclick, List.drop_left]
    simp [countUserEntries, mkUserMessage, augmentReply]
  · rw [hsend, List.drop_left]
    simp [countUserEntries, mkUserMessage, augmentReply]

/-- Witness: the double-append theorem at a concrete successful turn with
the identity autocorrection. -/
theorem c9_option_click_double_append_witness :
    c9Env.session = SessionOutcome.signedIn "u1" ∧
    c9Env.upstream = Except.ok "reply" ∧
    jsTrim c9St.input ≠ "" ∧
    (handleOptionClick c9Env "Tell me more" [] =
      [] ++ [mkUserMessage "Tell me more", mkUserMessage "Tell me more",
        augmentReply "reply" "Tell me more"] ∧
     countUserEntries "Tell me more"
       ((handleOptionClick c9Env "Tell me more" []).drop ([] : List Message).length) = 2 ∧
     (handleSend id c9Env c9St).messages =
       c9St.messages ++ [mkUserMessage (id c9St.input), augmentReply "reply" (id c9St.input)] ∧
     countUserEntries (id c9St.input)
       ((handleSend id c9Env c9St).messages.drop c9St.messages.length) = 1) :=
  ⟨rfl, rfl, by decide,
    c9_option_click_double_append c9Env "Tell me more" [] id c9St "u1" "reply"
      rfl rfl rfl rfl (by decide) rfl⟩

/-- Widget state with a whitespace-only input. -/
def c10St : UiState := { messages := [], input := "   ", isLoading := false }

/-- Collaborator outcomes never reached by the guarded send. -/
def c10Env : Env :=
  { session := SessionOutcome.signedIn "u1", userInsert := none,
    upstream := Except.ok "reply", botInsert := none }

/-- C10: when the trimmed input is empty or a request is in flight, send
does nothing: no notice, no store write, no upstream call, and the message
log and the input box are unchanged. -/
theorem c10_send_guard_noop (ac : String → String) (env : Env) (st : UiState)
    (h : jsTrim st.input = "" ∨ st.isLoading = true) :
    handleSend ac env st =
      { messages := st.messages, input := st.input, writes := [],
        upstreamCalled := false, toasts := [] } := by
  rcases h with h | h <;> simp [handleSend, h]

/-- Witness: the send guard at a concrete whitespace-only input. -/
theorem c10_send_guard_noop_witness :
    (jsTrim c10St.input = "" ∨ c10St.isLoading = true) ∧
    handleSend id c10Env c10St =
      { messages := c10St.messages, input := c10St.input, writes := [],
        upstreamCalled := false, toasts := [] } :=
  ⟨Or.inl (by decide), c10_send_guard_noop id c10Env c10St (Or.inl (by decide))⟩

end Flood
